import Mathlib

/-!
# GoFlow — shallow embedding and verification

Shallow embedding of the GoFlow background-job service (Go sources:
`main.go`, `jobs/*.go`, and the historical mains/handlers) and proofs of
the specification claims about it.

The job store is modelled as a list of rows; timestamps are integers
(seconds); JSON values are a small inductive `JVal`.  External effects
(HTTP, SMTP, the cron library, the HMAC-SHA256 primitive) are abstracted
as parameters, exactly at the call boundary the Go code uses them.
-/

namespace GoFlow

/-- JSON-like structured values (Go `map[string]interface{}` trees). -/
inductive JVal where
  | null : JVal
  | bool (b : Bool) : JVal
  | num (n : Int) : JVal
  | str (s : String) : JVal
  | arr (elems : List JVal) : JVal
  | obj (fields : List (String × JVal)) : JVal
deriving Repr

/-- Job status column: {pending, processing, completed, failed}. -/
inductive JobStatus where
  | pending
  | processing
  | completed
  | failed
deriving Repr, DecidableEq

/-- One row of the `jobs` table (schema from `initDB` in part_005 /
`main.go`). -/
structure JobRow where
  id : Nat
  jtype : String
  payload : JVal
  status : JobStatus
  retryCount : Nat
  runAt : Int
  lastError : Option String
  responseStatus : Option Int
  responseBody : Option JVal
  executionTimeMs : Option Int
  createdAt : Int
  updatedAt : Int
deriving Repr

/-- The job table. -/
abbrev Store := List JobRow

/-- `maxRetries = 3` (constant in `main.go` / part_005). -/
def maxRetries : Nat := 3

/-- `baseDelay = 5 * time.Second`, in seconds. -/
def baseDelaySec : Nat := 5

/-- `processingTimeout = 30 * time.Second`, in seconds. -/
def processingTimeoutSec : Int := 30

/-- `SELECT ... WHERE id = $1` (first row with the given id). -/
def findRow (st : Store) (id : Nat) : Option JobRow :=
  st.find? (fun r => r.id = id)

/-- `UPDATE jobs SET ... WHERE id = $1`: apply `f` to every row whose id
matches (with unique ids, exactly one). -/
def updateRow (st : Store) (id : Nat) (f : JobRow → JobRow) : Store :=
  st.map (fun r => if r.id = id then f r else r)

/-- Ids are pairwise distinct (SERIAL PRIMARY KEY). -/
def uniqueIds (st : Store) : Prop :=
  (st.map (·.id)).Nodup

/-- Lookup of a key in a JSON object (Go `payload["key"]`): `none` when the
value is not an object or the key is absent (Go nil interface). -/
def payloadGet (p : JVal) (k : String) : Option JVal :=
  match p with
  | .obj fields => (fields.find? (fun kv => kv.1 == k)).map (·.2)
  | _ => none

/-- Go type assertion `v.(string)`. -/
def JVal.asStr : JVal → Option String
  | .str s => some s
  | _ => none

/-- Go type assertion `v.(map[string]interface{})`. -/
def JVal.asObj : JVal → Option (List (String × JVal))
  | .obj fields => some fields
  | _ => none

/-- Go type assertion `v.(float64)` on a decoded JSON number (the model keeps
numbers integral). -/
def JVal.asNum : JVal → Option Int
  | .num n => some n
  | _ => none

/-- Go type assertion `v.(bool)`. -/
def JVal.asBool : JVal → Option Bool
  | .bool b => some b
  | _ => none

/-- Go pattern `s, ok := payload["k"].(string)`: `none` when the key is
absent or the value is not a string. -/
def getString (p : JVal) (k : String) : Option String :=
  (payloadGet p k).bind JVal.asStr

/-- Status column as stored in the TEXT column. -/
def JobStatus.text : JobStatus → String
  | .pending => "pending"
  | .processing => "processing"
  | .completed => "completed"
  | .failed => "failed"

/-! ## Worker claim (startWorker, part_005 lines 81-95 / main.go 73-87) -/

/-- Idle poll sleep when no row qualifies (`time.Sleep(200 * time.Millisecond)`). -/
def idleSleepMs : Nat := 200

/-- The claim query's WHERE clause on one row:
`status = 'pending' AND retry_count < $1 AND run_at <= NOW()`. -/
def claimable (now : Int) (r : JobRow) : Bool :=
  r.status == .pending && decide (r.retryCount < maxRetries) && decide (r.runAt ≤ now)

/-- The inner SELECT: lowest id among claimable rows not already locked by
another worker (`ORDER BY id LIMIT 1 FOR UPDATE SKIP LOCKED`). -/
def claimSelect (now : Int) (locked : List Nat) (st : Store) : Option Nat :=
  ((st.filter (fun r => claimable now r && !(decide (r.id ∈ locked)))).map (·.id)).min?

/-- Outcome of one claim attempt: a claimed id, or no job and a sleep. -/
inductive ClaimOutcome where
  | claimed (id : Nat)
  | noJob (sleepMs : Nat)
deriving Repr, DecidableEq

/-- The atomic claim: select the lowest-id ready unlocked row, flip it to
`processing`, stamp `updated_at = NOW()`, return its id; on `ErrNoRows`
sleep `idleSleepMs` and retry. -/
def claimJob (now : Int) (locked : List Nat) (st : Store) : ClaimOutcome × Store :=
  match claimSelect now locked st with
  | some i =>
      (.claimed i, updateRow st i (fun r => { r with status := .processing, updatedAt := now }))
  | none => (.noJob idleSleepMs, st)

/-! ## Retry policy (handleRetry, part_005 lines 303-349 / main.go 272-317) -/

/-- Backoff delay in seconds: `nextDelay := baseDelay * time.Duration(1<<retryCount)`. -/
def retryDelaySec (retryCount : Nat) : Nat := baseDelaySec * 2 ^ retryCount

/-- handleRetry: re-read `retry_count`; if `retryCount+1 >= maxRetries` mark
the row `failed` (incrementing `retry_count`), else reschedule it `pending`
at `NOW() + nextDelay` (incrementing `retry_count`). -/
def handleRetry (now : Int) (st : Store) (jobId : Nat) : Store :=
  match findRow st jobId with
  | none => st
  | some row =>
    let retryCount := row.retryCount
    if retryCount + 1 ≥ maxRetries then
      updateRow st jobId (fun r =>
        { r with status := .failed, retryCount := r.retryCount + 1, updatedAt := now })
    else
      let nextDelaySec := retryDelaySec retryCount
      updateRow st jobId (fun r =>
        { r with status := .pending, retryCount := r.retryCount + 1,
                 runAt := now + nextDelaySec, updatedAt := now })

/-! ## Recovery sweeper (recoverStuckJobs, part_005 lines 46-64) -/

/-- The sweeper UPDATE: every row with `status = 'processing'` and
`updated_at < NOW() - processingTimeout` goes back to `pending` with
`updated_at = NOW()`; every other row (and every `retry_count`) is left
untouched. -/
def recoverStuckJobs (now : Int) (st : Store) : Store :=
  st.map (fun r =>
    if r.status == .processing && decide (r.updatedAt < now - processingTimeoutSec) then
      { r with status := .pending, updatedAt := now }
    else r)

/-! ## Handler results and response wrapping (processJob, part_005 lines 112-184) -/

/-- Go handler response bytes classified by JSON validity: empty
(`len(responseBody) == 0`), bytes that unmarshal to a value, or nonempty
bytes that fail `json.Unmarshal`. -/
inductive RawBytes where
  | empty
  | jsonBytes (v : JVal)
  | rawText (s : String)
deriving Repr

/-- Handler return triple `(statusCode int, responseBody []byte, err error)`;
the error is its message string. -/
structure ExecResult where
  statusCode : Int
  responseBody : RawBytes
  execErr : Option String
deriving Repr

/-- Lines 138-146 of part_005: if the response bytes are nonempty and not
valid JSON, replace them with the marshalled `\x7b"raw": "<string>"\x7d` object. -/
def ensureJsonBody : RawBytes → RawBytes
  | .rawText s => .jsonBytes (.obj [("raw", .str s)])
  | b => b

/-- Value stored in the JSONB `response_body` column: NULL for empty bytes,
the parsed value for valid JSON.  (Nonempty invalid bytes would be rejected
by the store; after `ensureJsonBody` that case is unreachable.) -/
def storeBytes : RawBytes → Option JVal
  | .empty => none
  | .jsonBytes v => some v
  | .rawText _ => none

/-- processJob: fetch the row, execute the handler (`exec`), JSON-wrap the
response bytes, then either persist the completed row or persist diagnostics
and run handleRetry.  The handler call and the wall clock are parameters
(`exec`, `duration`). -/
def processJob (now duration : Int) (exec : String → JVal → ExecResult)
    (st : Store) (id : Nat) : Store :=
  match findRow st id with
  | none => st
  | some job =>
    let res := exec job.jtype job.payload
    let responseBody := ensureJsonBody res.responseBody
    match res.execErr with
    | some msg =>
        let st1 := updateRow st id (fun r =>
          { r with lastError := some msg, responseStatus := some res.statusCode,
                   responseBody := storeBytes responseBody,
                   executionTimeMs := some duration, updatedAt := now })
        handleRetry now st1 id
    | none =>
        updateRow st id (fun r =>
          { r with status := .completed, responseStatus := some res.statusCode,
                   responseBody := storeBytes responseBody,
                   executionTimeMs := some duration, lastError := none,
                   updatedAt := now })

/-- One iteration of the worker loop: claim, then process the claimed id. -/
def workerCycle (now duration : Int) (exec : String → JVal → ExecResult)
    (locked : List Nat) (st : Store) : Store :=
  match claimJob now locked st with
  | (.claimed i, st2) => processJob now duration exec st2 i
  | (.noJob _, st2) => st2

/-! ## Executor dispatch tables (src/jobs/executor.go and src/unnamed/part_003) -/

/-- The nine handler functions referenced in the source, as abstract
functions from payload to result (their bodies perform network/SMTP/DB
I/O and are external collaborators). -/
structure Handlers where
  httpRequest : JVal → ExecResult
  sendEmail : JVal → ExecResult
  webhookDelivery : JVal → ExecResult
  delay : JVal → ExecResult
  cronSchedule : JVal → ExecResult
  dataExtract : JVal → ExecResult
  dbQuery : JVal → ExecResult
  aiPrompt : JVal → ExecResult
  callback : JVal → ExecResult

/-- Default switch arm: `fmt.Errorf("unknown job type: %s", jobType)` with
statusCode 0 and nil response bytes. -/
def unknownTypeResult (jobType : String) : ExecResult :=
  { statusCode := 0, responseBody := .empty, execErr := some ("unknown job type: " ++ jobType) }

/-- Execute from src/unnamed/part_003: a six-way switch. -/
def ExecutePart003 (h : Handlers) (jobType : String) (payload : JVal) : ExecResult :=
  match jobType with
  | "http_request" => h.httpRequest payload
  | "send_email" => h.sendEmail payload
  | "webhook_delivery" => h.webhookDelivery payload
  | "delay" => h.delay payload
  | "cron_schedule" => h.cronSchedule payload
  | "data_extract" => h.dataExtract payload
  | _ => unknownTypeResult jobType

/-- Execute from src/jobs/executor.go: a five-way switch (no data_extract arm). -/
def ExecuteExecutorGo (h : Handlers) (jobType : String) (payload : JVal) : ExecResult :=
  match jobType with
  | "http_request" => h.httpRequest payload
  | "send_email" => h.sendEmail payload
  | "webhook_delivery" => h.webhookDelivery payload
  | "delay" => h.delay payload
  | "cron_schedule" => h.cronSchedule payload
  | _ => unknownTypeResult jobType

/-- Type tags routed by the executor.go switch, in source order. -/
def routedTypesExecutorGo : List String :=
  ["http_request", "send_email", "webhook_delivery", "delay", "cron_schedule"]

/-- Type tags routed by the part_003 switch, in source order. -/
def routedTypesPart003 : List String :=
  ["http_request", "send_email", "webhook_delivery", "delay", "cron_schedule", "data_extract"]

/-- Names of the handler functions referenced anywhere in the source
(jobs package plus the unnamed handler files). -/
def handlerFunctionNames : List String :=
  ["executeHTTPRequest", "executeSendEmail", "executeWebhookDelivery",
   "executeDelay", "executeCronSchedule", "executeDataExtract",
   "executeDBQuery", "executeAIPrompt", "executeCallback"]

/-- A dispatch table routes a tag when, for some choice of handlers and
payload, control reaches a handler instead of the unknown-type arm. -/
def routes (E : Handlers → String → JVal → ExecResult) (t : String) : Prop :=
  ∃ h p, E h t p ≠ unknownTypeResult t

/-! ## JSON serialization and hex encoding -/

mutual

/-- Serialized bytes of a JSON value (json.Marshal). -/
def serializeJVal : JVal → String
  | .null => "null"
  | .bool true => "true"
  | .bool false => "false"
  | .num n => toString n
  | .str s => "\"" ++ s ++ "\""
  | .arr elems => "[" ++ serializeElems elems ++ "]"
  | .obj fields => "\x7b" ++ serializeFields fields ++ "\x7d"

/-- Serialized array elements, comma separated. -/
def serializeElems : List JVal → String
  | [] => ""
  | [v] => serializeJVal v
  | v :: rest => serializeJVal v ++ "," ++ serializeElems rest

/-- Serialized object fields, comma separated. -/
def serializeFields : List (String × JVal) → String
  | [] => ""
  | [(k, v)] => "\"" ++ k ++ "\":" ++ serializeJVal v
  | (k, v) :: rest => "\"" ++ k ++ "\":" ++ serializeJVal v ++ "," ++ serializeFields rest

end

/-- The lowercase digit table of Go's encoding/hex, hextable. -/
def hexTable : String := "0123456789abcdef"

/-- The digit table as characters. -/
def hexDigits : List Char := hexTable.data

/-- Two lowercase hex digits of one byte. -/
def byteToHex (b : Nat) : List Char :=
  [hexDigits.getD (b / 16 % 16) '0', hexDigits.getD (b % 16) '0']

/-- hex.EncodeToString over a digest given as a byte list. -/
def hexEncode (bs : List Nat) : String :=
  ⟨(bs.map byteToHex).flatten⟩

/-- An outbound HTTP request as constructed by the Go code (the actual send
is external). -/
structure OutRequest where
  method : String
  url : String
  bodyBytes : String
  headers : List (String × String)
deriving Repr

/-! ## Auto callback (triggerAutoCallback, part_005 lines 186-252)

Called on both terminal transitions: after the completed update in
processJob and after the failed update in handleRetry.  The HMAC-SHA256
primitive of crypto/hmac + crypto/sha256 is the parameter `hmacSHA256`
(key bytes, message bytes → digest bytes). -/

/-- triggerAutoCallback up to the `client.Do` call: `none` when no
callback is sent (missing/empty `callback_url`, or the row fetch fails),
otherwise the constructed POST request. -/
def triggerAutoCallback (hmacSHA256 : String → String → List Nat)
    (jobId : Nat) (payload : JVal) (st : Store) : Option OutRequest :=
  match getString payload "callback_url" with
  | none => none
  | some callbackURL =>
    if callbackURL = "" then none
    else
      let secret := (getString payload "callback_secret").getD ""
      match findRow st jobId with
      | none => none
      | some row =>
        let fields := [("job_id", JVal.num jobId), ("status", JVal.str row.status.text)]
        let fields := match row.responseBody with
          | some v => fields ++ [("response", v)]
          | none => fields
        let fields := match row.lastError with
          | some e => fields ++ [("error", JVal.str e)]
          | none => fields
        let bodyBytes := serializeJVal (.obj fields)
        let headers := [("Content-Type", "application/json")]
        let headers := if secret ≠ "" then
            headers ++ [("X-GoFlow-Signature", "sha256=" ++ hexEncode (hmacSHA256 secret bodyBytes))]
          else headers
        some { method := "POST", url := callbackURL, bodyBytes := bodyBytes, headers := headers }

/-! ## Webhook delivery handler (executeWebhookDelivery, part_001 lines 15-57) -/

/-- executeWebhookDelivery up to the `client.Do` call: payload validation
and construction of the signed POST request. -/
def webhookDeliveryRequest (hmacSHA256 : String → String → List Nat)
    (payload : JVal) : Except String OutRequest :=
  match getString payload "url" with
  | none => .error "missing url"
  | some url =>
    match getString payload "event" with
    | none => .error "missing event"
    | some event =>
      let data := (payloadGet payload "data").getD .null
      match getString payload "secret" with
      | none => .error "missing secret"
      | some secret =>
        let bodyBytes := serializeJVal (.obj [("event", .str event), ("data", data)])
        let signature := hexEncode (hmacSHA256 secret bodyBytes)
        .ok { method := "POST", url := url, bodyBytes := bodyBytes,
              headers := [("Content-Type", "application/json"),
                          ("X-GoFlow-Signature", "sha256=" ++ signature)] }

/-! ## HTTP request handler (executeHTTPRequest, src/jobs/http.go lines 12-41) -/

/-- executeHTTPRequest up to the `client.Do` call: `method` defaults to GET
when the payload has no string `method` field; a missing `url` string is an
error. -/
def httpRequestBuild (payload : JVal) : Except String OutRequest :=
  match getString payload "url" with
  | none => .error "missing url"
  | some url =>
    let method := (getString payload "method").getD "GET"
    let bodyBytes := match payloadGet payload "body" with
      | some v => serializeJVal v
      | none => ""
    .ok { method := method, url := url, bodyBytes := bodyBytes,
          headers := [("Content-Type", "application/json")] }

/-! ## Cron continuation (executeCronSchedule, src/jobs/cron.go lines 11-78)

The robfig/cron parser and schedule are the consumed library: parameters
`parseCron` (returns the parse error message on failure) and `schedNext`
(the schedule's Next on a UTC instant). -/

/-- A fresh row as inserted by `INSERT INTO jobs (type, payload, status,
run_at) VALUES (..., 'pending', ...)` with the schema's column defaults. -/
def insertedRow (id : Nat) (now : Int) (jtype : String) (payload : JVal) (runAt : Int) : JobRow :=
  { id := id, jtype := jtype, payload := payload, status := .pending,
    retryCount := 0, runAt := runAt, lastError := none, responseStatus := none,
    responseBody := none, executionTimeMs := none, createdAt := now, updatedAt := now }

/-- executeCronSchedule: validate the payload, parse the 5-field cron
expression, compute `nextRun = schedule.Next(now UTC)`, insert the underlying
job and a self-perpetuating cron_schedule row (both pending at nextRun), and
complete with 200 and the result object. -/
def executeCronSchedule {Sched : Type} (parseCron : String → Except String Sched)
    (schedNext : Sched → Int → Int) (nowUTC : Int) (nextId : Nat)
    (payload : JVal) (st : Store) : Store × ExecResult :=
  match getString payload "cron" with
  | none => (st, { statusCode := 0, responseBody := .empty, execErr := some "missing cron expression" })
  | some cronExpr =>
    match (payloadGet payload "job").bind JVal.asObj with
    | none => (st, { statusCode := 0, responseBody := .empty, execErr := some "missing job definition" })
    | some jobRaw =>
      match getString (.obj jobRaw) "type" with
      | none => (st, { statusCode := 0, responseBody := .empty, execErr := some "job missing type" })
      | some jobType =>
        match (payloadGet (.obj jobRaw) "payload").bind JVal.asObj with
        | none => (st, { statusCode := 0, responseBody := .empty, execErr := some "job missing payload" })
        | some jobPayload =>
          match parseCron cronExpr with
          | .error e => (st, { statusCode := 0, responseBody := .empty, execErr := some e })
          | .ok schedule =>
            let nextRun := schedNext schedule nowUTC
            let st1 := st ++ [insertedRow nextId nowUTC jobType (.obj jobPayload) nextRun]
            let st2 := st1 ++ [insertedRow (nextId + 1) nowUTC "cron_schedule" payload nextRun]
            let result := JVal.obj [("next_run_at", .num nextRun), ("scheduled_job_type", .str jobType)]
            (st2, { statusCode := 200, responseBody := .jsonBytes result, execErr := none })

/-! ## Submission API (jobsHandler POST arm, part_005 lines 432-466 / main.go 395-429) -/

/-- The decoded POST /jobs body (fields of the Job struct the client may
supply; `runAt? = none` models Go's zero time / absent field). -/
structure PostJobRequest where
  jtype : String
  payload : JVal
  status : String
  runAt? : Option Int

/-- Status TEXT column decoded to the enumeration. -/
def statusOfText (s : String) : JobStatus :=
  if s = "pending" then .pending
  else if s = "processing" then .processing
  else if s = "completed" then .completed
  else .failed

/-- The POST arm of jobsHandler: default `run_at` to now (UTC), overwrite
the client status (`req.Status = "pending"`), insert the row with the
request's fields, and return the inserted row. -/
def jobsHandlerPost (now : Int) (nextId : Nat) (req : PostJobRequest) (st : Store) :
    Store × JobRow :=
  let runAt := match req.runAt? with
    | none => now
    | some t => t
  let req2 := { req with status := "pending" }
  let row := { insertedRow nextId now req2.jtype req2.payload runAt with
               status := statusOfText req2.status }
  (st ++ [row], row)

/-! ## Startup ordering (main, part_005 lines 370-426) -/

/-- The observable startup actions of main, in program order. -/
inductive StartupEvent where
  | connectStore
  | checkSMTPCreds
  | recoverSweep
  | spawnWorker (i : Nat)
  | spawnRecoveryLoop
  | startHTTPServer
deriving Repr, DecidableEq

/-- Is this event the spawn of a worker agent? -/
def StartupEvent.isWorkerSpawn : StartupEvent → Bool
  | .spawnWorker _ => true
  | _ => false

/-- main in part_005: initDB, SMTP credential check, one eager
recoverStuckJobs call, then the five worker goroutines, the recovery loop
and the HTTP server. -/
def mainStartupEvents : List StartupEvent :=
  [.connectStore, .checkSMTPCreds, .recoverSweep] ++
    (List.range 5).map (fun i => .spawnWorker (i + 1)) ++
    [.spawnRecoveryLoop, .startHTTPServer]

/-- Dummy row (used only as the out-of-range default of getD; its status is
not `processing`, so the sweeper condition is false on it). -/
def noRow : JobRow :=
  { id := 0, jtype := "", payload := .null, status := .pending, retryCount := 0,
    runAt := 0, lastError := none, responseStatus := none, responseBody := none,
    executionTimeMs := none, createdAt := 0, updatedAt := 0 }

/-! ## Helper lemmas -/

theorem findRow_updateRow (st : Store) (i : Nat) (f : JobRow → JobRow)
    (hf : ∀ r, (f r).id = r.id) (j : Nat) :
    findRow (updateRow st i f) j =
      if j = i then (findRow st j).map f else findRow st j := by
  induction st with
  | nil => by_cases h : j = i <;> simp [findRow, updateRow, h]
  | cons r rest ih =>
    simp only [findRow, updateRow] at ih ⊢
    by_cases hri : r.id = i <;> by_cases hrj : r.id = j
    · have hji : j = i := hrj ▸ hri
      subst hji
      simp [List.find?_cons, hri, hrj, hf r]
    · have hji : ¬ j = i := fun h => hrj (h ▸ hri)
      have hij : ¬ i = j := fun h => hji h.symm
      have hfr : ¬ (f r).id = j := by rw [hf r]; exact hrj
      simp only [List.map_cons, List.find?_cons, hri, if_true, if_pos rfl]
      simp [hfr, hrj, hji, hij, ih]
    · have hji : ¬ j = i := fun h => hri (h ▸ hrj)
      simp [List.find?_cons, hri, hrj, hji]
    · simp only [List.map_cons, List.find?_cons, hri, if_false]
      simp [hri, hrj, ih]

/-! ## Claims -/

/-- C1: when a claimed job's attempt fails, handleRetry branches on the
retry_count read before the increment: with `retry_count + 1 >= maxRetries`
(maxRetries = 3) the row becomes failed with retry_count incremented;
otherwise it becomes pending with retry_count incremented and
`run_at = now + baseDelay * 2^retry_count`, the delay formula giving
5 s, 10 s, 20 s at retry_count 0, 1, 2 for the default baseDelay of 5 s. -/
theorem C1_retry_policy (now : Int) (st : Store) (jobId : Nat) (r : JobRow)
    (hfind : findRow st jobId = some r) :
    (r.retryCount + 1 ≥ maxRetries →
      findRow (handleRetry now st jobId) jobId =
        some { r with status := .failed, retryCount := r.retryCount + 1, updatedAt := now }) ∧
    (r.retryCount + 1 < maxRetries →
      findRow (handleRetry now st jobId) jobId =
        some { r with status := .pending, retryCount := r.retryCount + 1,
                      runAt := now + (retryDelaySec r.retryCount : Int), updatedAt := now }) ∧
    maxRetries = 3 ∧ baseDelaySec = 5 ∧
    retryDelaySec 0 = 5 ∧ retryDelaySec 1 = 10 ∧ retryDelaySec 2 = 20 := by
  refine ⟨?_, ?_, rfl, rfl, rfl, rfl, rfl⟩
  · intro hc
    simp only [handleRetry, hfind]
    have hfr := findRow_updateRow st jobId
      (fun r => { r with status := JobStatus.failed, retryCount := r.retryCount + 1,
                         updatedAt := now }) (fun _ => rfl) jobId
    rw [if_pos hc, hfr, if_pos rfl, hfind]
    rfl
  · intro hc
    simp only [handleRetry, hfind]
    have hfr := findRow_updateRow st jobId
      (fun x => { x with status := JobStatus.pending, retryCount := x.retryCount + 1,
                         runAt := now + (retryDelaySec r.retryCount : Int),
                         updatedAt := now }) (fun _ => rfl) jobId
    rw [if_neg (by omega), hfr, if_pos rfl, hfind]
    rfl

/-- Row used by concrete witnesses: a processing job on its first attempt. -/
def wRow : JobRow :=
  { id := 1, jtype := "http_request", payload := .null, status := .processing,
    retryCount := 0, runAt := 0, lastError := none, responseStatus := none,
    responseBody := none, executionTimeMs := none, createdAt := 0, updatedAt := 50 }

/-- Witness for C1: the first failure of wRow reschedules it pending at
now + 5 s with retry_count 1. -/
theorem C1_retry_policy_witness :
    findRow (handleRetry 100 [wRow] 1) 1 =
      some { wRow with status := .pending, retryCount := 1, runAt := 105, updatedAt := 100 } :=
  (C1_retry_policy 100 [wRow] 1 wRow rfl).2.1 (by decide)

/-- The sweeper's per-row update, with the SQL WHERE clause as a
proposition. -/
theorem sweepRow_eq (now : Int) (r : JobRow) :
    (if r.status == JobStatus.processing && decide (r.updatedAt < now - processingTimeoutSec)
     then { r with status := .pending, updatedAt := now } else r) =
      (if r.status = JobStatus.processing ∧ r.updatedAt < now - processingTimeoutSec
       then { r with status := .pending, updatedAt := now } else r) := by
  by_cases h : r.status = JobStatus.processing ∧ r.updatedAt < now - processingTimeoutSec
  · simp [h.1, h.2]
  · rw [if_neg h]
    rw [if_neg ?_]
    intro hb
    exact h (by simpa using hb)

/-- C3: every sweeper run flips exactly the rows with status processing and
updated_at older than now - processingTimeout back to pending (stamping
updated_at = now), leaves every other row and every retry_count unchanged;
and main runs one sweep before any worker is spawned. -/
theorem C3_recovery_sweeper (now : Int) (st : Store) :
    (recoverStuckJobs now st).length = st.length ∧
    (∀ i : Nat,
      (recoverStuckJobs now st).getD i noRow =
        (if (st.getD i noRow).status = .processing ∧
            (st.getD i noRow).updatedAt < now - processingTimeoutSec then
          { st.getD i noRow with status := .pending, updatedAt := now }
        else st.getD i noRow)) ∧
    (∀ i : Nat,
      ((recoverStuckJobs now st).getD i noRow).retryCount = (st.getD i noRow).retryCount) ∧
    (∀ e ∈ mainStartupEvents, e.isWorkerSpawn = true →
      mainStartupEvents.indexOf .recoverSweep < mainStartupEvents.indexOf e) := by
  have hget : ∀ i : Nat,
      (recoverStuckJobs now st).getD i noRow =
        (if (st.getD i noRow).status = .processing ∧
            (st.getD i noRow).updatedAt < now - processingTimeoutSec then
          { st.getD i noRow with status := .pending, updatedAt := now }
        else st.getD i noRow) := by
    intro i
    simp only [recoverStuckJobs, List.getD_eq_getElem?_getD, List.getElem?_map]
    cases h : st[i]? with
    | none => simp [noRow]
    | some r => simp only [Option.map_some, Option.getD_some]; exact sweepRow_eq now r
  refine ⟨by simp [recoverStuckJobs], hget, ?_, by decide⟩
  intro i
  rw [hget i]
  by_cases h : (st.getD i noRow).status = .processing ∧
      (st.getD i noRow).updatedAt < now - processingTimeoutSec
  · rw [if_pos h]
  · rw [if_neg h]

/-- A job stuck in processing since updated_at = 0 (lease long expired at
now = 100). -/
def stuckRow : JobRow :=
  { wRow with id := 2, status := .processing, retryCount := 1, updatedAt := 0 }

/-- Witness for C3: at now = 100 the sweeper reclaims stuckRow (processing,
updated_at 0 < 70), stamping updated_at = 100 and keeping retry_count = 1. -/
theorem C3_recovery_sweeper_witness :
    (recoverStuckJobs 100 [stuckRow]).getD 0 noRow =
      { stuckRow with status := .pending, updatedAt := 100 } := by
  rw [(C3_recovery_sweeper 100 [stuckRow]).2.1 0, if_pos (by decide)]
  rfl

/-- C9: the POST /jobs handler overwrites any client-supplied status with
"pending" before inserting, so the inserted row is pending whatever status
the request carried; the new store is the old one plus that single row. -/
theorem C9_insert_status_pending (now : Int) (nextId : Nat) (req : PostJobRequest)
    (st : Store) :
    (jobsHandlerPost now nextId req st).2.status = JobStatus.pending ∧
    (jobsHandlerPost now nextId req st).2.status ≠ JobStatus.processing ∧
    (jobsHandlerPost now nextId req st).2.status ≠ JobStatus.completed ∧
    (jobsHandlerPost now nextId req st).2.status ≠ JobStatus.failed ∧
    (jobsHandlerPost now nextId req st).1 = st ++ [(jobsHandlerPost now nextId req st).2] ∧
    (jobsHandlerPost now nextId req st).2.retryCount = 0 ∧
    (req.runAt? = none → (jobsHandlerPost now nextId req st).2.runAt = now) := by
  refine ⟨rfl, by simp [jobsHandlerPost, statusOfText, insertedRow], by
    simp [jobsHandlerPost, statusOfText, insertedRow], by
    simp [jobsHandlerPost, statusOfText, insertedRow], rfl, rfl, ?_⟩
  intro h
  simp [jobsHandlerPost, h, insertedRow]

/-- Witness for C9: a request claiming status "completed" is still inserted
pending. -/
theorem C9_insert_status_pending_witness :
    (jobsHandlerPost 100 7
      { jtype := "http_request", payload := .null, status := "completed",
        runAt? := none } []).2.status = JobStatus.pending :=
  (C9_insert_status_pending 100 7
    { jtype := "http_request", payload := .null, status := "completed",
      runAt? := none } []).1

/-- C10: executeHTTPRequest falls back to method GET when the payload has no
string method field, and a payload with a url string but no method is not an
error: the request is built and issued. -/
theorem C10_method_defaults_to_get (payload : JVal) (url : String)
    (hurl : getString payload "url" = some url)
    (hm : getString payload "method" = none) :
    ∃ req, httpRequestBuild payload = .ok req ∧ req.method = "GET" ∧ req.url = url := by
  simp only [httpRequestBuild, hurl, hm, Option.getD_none]
  exact ⟨_, rfl, rfl, rfl⟩

/-- Witness for C10: a payload with only a url builds a GET request. -/
theorem C10_method_defaults_to_get_witness :
    ∃ req, httpRequestBuild (.obj [("url", .str "http://echo.local/ok")]) = .ok req ∧
      req.method = "GET" ∧ req.url = "http://echo.local/ok" :=
  C10_method_defaults_to_get (.obj [("url", .str "http://echo.local/ok")])
    "http://echo.local/ok" rfl rfl

/-- C2: a successful claim picks the lowest-id row that is pending, below
the retry bound and due (run_at <= now), skipping rows locked by other
workers; it flips exactly that row to processing with updated_at = now and
returns its id.  When no row qualifies the claim yields no job and the
worker sleeps idleSleepMs before retrying. -/
theorem C2_claim_protocol (now : Int) (locked : List Nat) (st : Store) :
    (∀ i st2, claimJob now locked st = (.claimed i, st2) →
       (∃ r ∈ st, r.id = i ∧ claimable now r = true ∧ i ∉ locked) ∧
       (∀ r ∈ st, claimable now r = true → r.id ∉ locked → i ≤ r.id) ∧
       findRow st2 i = (findRow st i).map
         (fun r => { r with status := .processing, updatedAt := now }) ∧
       (∀ j, j ≠ i → findRow st2 j = findRow st j)) ∧
    ((∀ r ∈ st, ¬(claimable now r = true ∧ r.id ∉ locked)) →
       claimJob now locked st = (.noJob idleSleepMs, st)) := by
  constructor
  · intro i st2 h
    unfold claimJob at h
    cases hsel : claimSelect now locked st with
    | none => rw [hsel] at h; exact absurd (congrArg Prod.fst h) (by simp)
    | some k =>
      rw [hsel] at h
      have hik : k = i := by
        have := congrArg Prod.fst h
        simpa using this
      subst hik
      have hst2 : st2 = updateRow st k
          (fun r => { r with status := .processing, updatedAt := now }) := by
        have := congrArg Prod.snd h
        simp at this
        exact this.symm
      have hmin := (List.min?_eq_some_iff' ..).mp hsel
      obtain ⟨hmem, hle⟩ := hmin
      rw [List.mem_map] at hmem
      obtain ⟨r, hrf, hri⟩ := hmem
      rw [List.mem_filter] at hrf
      obtain ⟨hrmem, hq⟩ := hrf
      rw [Bool.and_eq_true, Bool.not_eq_true', decide_eq_false_iff_not] at hq
      refine ⟨⟨r, hrmem, hri, hq.1, hri ▸ hq.2⟩, ?_, ?_, ?_⟩
      · intro r2 hr2 hc2 hl2
        apply hle
        rw [List.mem_map]
        exact ⟨r2, List.mem_filter.mpr ⟨hr2, by
          rw [Bool.and_eq_true, Bool.not_eq_true', decide_eq_false_iff_not]
          exact ⟨hc2, hl2⟩⟩, rfl⟩
      · rw [hst2, findRow_updateRow st k
          (fun r => { r with status := JobStatus.processing, updatedAt := now })
          (fun _ => rfl) k, if_pos rfl]
      · intro j hj
        rw [hst2, findRow_updateRow st k
          (fun r => { r with status := JobStatus.processing, updatedAt := now })
          (fun _ => rfl) j, if_neg hj]
  · intro hnone
    unfold claimJob
    have hfil : st.filter (fun r => claimable now r && !(decide (r.id ∈ locked))) = [] := by
      rw [List.filter_eq_nil_iff]
      intro r hr
      rw [Bool.and_eq_true, Bool.not_eq_true', decide_eq_false_iff_not]
      exact fun hc => hnone r hr ⟨hc.1, hc.2⟩
    rw [claimSelect, hfil]
    rfl

/-- Second ready row for the C2 witness (higher id, also ready). -/
def wRow2 : JobRow :=
  { wRow with id := 3, status := .pending, runAt := 10 }

/-- First ready row for the C2 witness. -/
def wRow1 : JobRow :=
  { wRow with id := 1, status := .pending, runAt := 0 }

/-- Witness for C2: with two ready rows the claim takes id 1 (the lower) and
flips it to processing at now = 100; on the empty table it yields no job and
the 200 ms idle sleep. -/
theorem C2_claim_protocol_witness :
    findRow (claimJob 100 [] [wRow1, wRow2]).2 1 =
      some { wRow1 with status := .processing, updatedAt := 100 } ∧
    (1 : Nat) ≤ wRow2.id ∧
    claimJob 100 [] ([] : Store) = (.noJob idleSleepMs, []) := by
  have h := (C2_claim_protocol 100 [] [wRow1, wRow2]).1 1 (claimJob 100 [] [wRow1, wRow2]).2 rfl
  refine ⟨?_, ?_, (C2_claim_protocol 100 [] []).2 (by simp)⟩
  · rw [h.2.2.1]
    rfl
  · exact h.2.1 wRow2 (by simp) (by decide) (by simp)

/-- C4: whatever the handler returns, the persisted response_body column is
the JSON-wrapped value — nonempty bytes that fail to parse are stored as the
object with the single field raw holding the bytes as a string, valid JSON
is stored as parsed, empty bytes as NULL — and this holds on the success
path and on the failure path alike, since the wrap runs before the branch. -/
theorem C4_response_body_wrapped (now duration : Int) (exec : String → JVal → ExecResult)
    (st : Store) (id : Nat) (r : JobRow) (hfind : findRow st id = some r) :
    (findRow (processJob now duration exec st id) id).map (·.responseBody) =
      some (storeBytes (ensureJsonBody (exec r.jtype r.payload).responseBody)) ∧
    (∀ s, storeBytes (ensureJsonBody (.rawText s)) = some (.obj [("raw", .str s)])) ∧
    (∀ v, storeBytes (ensureJsonBody (.jsonBytes v)) = some v) ∧
    storeBytes (ensureJsonBody .empty) = none := by
  refine ⟨?_, fun s => rfl, fun v => rfl, rfl⟩
  simp only [processJob, hfind]
  cases herr : (exec r.jtype r.payload).execErr with
  | none =>
    simp only [herr]
    rw [findRow_updateRow st id
      (fun x => { x with status := JobStatus.completed,
                         responseStatus := some (exec r.jtype r.payload).statusCode,
                         responseBody := storeBytes (ensureJsonBody (exec r.jtype r.payload).responseBody),
                         executionTimeMs := some duration, lastError := none,
                         updatedAt := now }) (fun _ => rfl) id, if_pos rfl, hfind]
    rfl
  | some msg =>
    simp only [herr]
    have h1 : findRow (updateRow st id
        (fun x => { x with lastError := some msg,
                           responseStatus := some (exec r.jtype r.payload).statusCode,
                           responseBody := storeBytes (ensureJsonBody (exec r.jtype r.payload).responseBody),
                           executionTimeMs := some duration, updatedAt := now })) id =
        some { r with lastError := some msg,
                      responseStatus := some (exec r.jtype r.payload).statusCode,
                      responseBody := storeBytes (ensureJsonBody (exec r.jtype r.payload).responseBody),
                      executionTimeMs := some duration, updatedAt := now } := by
      rw [findRow_updateRow st id
        (fun x => { x with lastError := some msg,
                           responseStatus := some (exec r.jtype r.payload).statusCode,
                           responseBody := storeBytes (ensureJsonBody (exec r.jtype r.payload).responseBody),
                           executionTimeMs := some duration, updatedAt := now })
        (fun _ => rfl) id, if_pos rfl, hfind]
      rfl
    simp only [handleRetry, h1]
    by_cases hc : r.retryCount + 1 ≥ maxRetries
    · rw [if_pos hc]
      rw [findRow_updateRow _ id
        (fun x => { x with status := JobStatus.failed, retryCount := x.retryCount + 1,
                           updatedAt := now }) (fun _ => rfl) id, if_pos rfl, h1]
      rfl
    · rw [if_neg hc]
      rw [findRow_updateRow _ id
        (fun x => { x with status := JobStatus.pending, retryCount := x.retryCount + 1,
                           runAt := now + (retryDelaySec r.retryCount : Int),
                           updatedAt := now }) (fun _ => rfl) id, if_pos rfl, h1]
      rfl

/-- Executor stub for the C4 witness: nonempty non-JSON bytes with no error. -/
def rawExec : String → JVal → ExecResult :=
  fun _ _ => { statusCode := 200, responseBody := .rawText "OK", execErr := none }

/-- Witness for C4: raw bytes "OK" are persisted as the wrapped raw object. -/
theorem C4_response_body_wrapped_witness :
    (findRow (processJob 100 7 rawExec [wRow] 1) 1).map (·.responseBody) =
      some (some (.obj [("raw", .str "OK")])) :=
  (C4_response_body_wrapped 100 7 rawExec [wRow] 1 wRow rfl).1

/-- C6: on a parse-accepted cron expression and a well-formed inner job,
executeCronSchedule inserts exactly two pending rows at
nextRun = schedule.Next(now UTC) — the underlying job with its own type and
payload, and a cron_schedule row carrying the full payload — and completes
with status 200 and the body holding next_run_at and scheduled_job_type. -/
theorem C6_cron_schedule {Sched : Type} (parseCron : String → Except String Sched)
    (schedNext : Sched → Int → Int) (nowUTC : Int) (nextId : Nat)
    (payload : JVal) (st : Store) (cronExpr : String) (sched : Sched)
    (jobRaw : List (String × JVal)) (jobType : String) (jobPayload : List (String × JVal))
    (hc : getString payload "cron" = some cronExpr)
    (hj : (payloadGet payload "job").bind JVal.asObj = some jobRaw)
    (hT : getString (.obj jobRaw) "type" = some jobType)
    (hp : (payloadGet (.obj jobRaw) "payload").bind JVal.asObj = some jobPayload)
    (hparse : parseCron cronExpr = .ok sched) :
    executeCronSchedule parseCron schedNext nowUTC nextId payload st =
      (st ++ [insertedRow nextId nowUTC jobType (.obj jobPayload) (schedNext sched nowUTC),
              insertedRow (nextId + 1) nowUTC "cron_schedule" payload (schedNext sched nowUTC)],
       { statusCode := 200,
         responseBody := .jsonBytes (.obj [("next_run_at", .num (schedNext sched nowUTC)),
                                           ("scheduled_job_type", .str jobType)]),
         execErr := none }) ∧
    (insertedRow nextId nowUTC jobType (.obj jobPayload) (schedNext sched nowUTC)).status =
      JobStatus.pending ∧
    (insertedRow (nextId + 1) nowUTC "cron_schedule" payload (schedNext sched nowUTC)).status =
      JobStatus.pending := by
  refine ⟨?_, rfl, rfl⟩
  simp [executeCronSchedule, hc, hj, hT, hp, hparse]

/-- Payload for the C6 witness: a one-minute cron wrapping an http_request. -/
def wCronPayload : JVal :=
  .obj [("cron", .str "*/1 * * * *"),
        ("job", .obj [("type", .str "http_request"),
                      ("payload", .obj [("url", .str "http://echo.local/ok")])])]

/-- Witness for C6 with the schedule library abstracted as one minute ahead. -/
theorem C6_cron_schedule_witness :
    executeCronSchedule (fun _ => Except.ok ()) (fun _ n => n + 60) 0 10 wCronPayload [] =
      ([insertedRow 10 0 "http_request" (.obj [("url", .str "http://echo.local/ok")]) 60,
        insertedRow 11 0 "cron_schedule" wCronPayload 60],
       { statusCode := 200,
         responseBody := .jsonBytes (.obj [("next_run_at", .num 60),
                                           ("scheduled_job_type", .str "http_request")]),
         execErr := none }) :=
  (C6_cron_schedule (fun _ => Except.ok ()) (fun _ n => n + 60) 0 10 wCronPayload []
    "*/1 * * * *" () [("type", .str "http_request"),
                      ("payload", .obj [("url", .str "http://echo.local/ok")])]
    "http_request" [("url", .str "http://echo.local/ok")]
    rfl rfl rfl rfl rfl).1

/-- Every character the hex encoder emits comes from the lowercase digit
table. -/
theorem mem_hexDigits_of_mem_byteToHex (b : Nat) (c : Char) (h : c ∈ byteToHex b) :
    c ∈ hexDigits := by
  have hmem : ∀ i : Nat, i < hexDigits.length → hexDigits.getD i '0' ∈ hexDigits := by
    intro i hi
    rw [List.getD_eq_getElem hexDigits '0' hi]
    exact List.getElem_mem hi
  have h16 : (16 : Nat) = hexDigits.length := by decide
  rcases h with _ | ⟨_, h⟩
  · exact hmem _ (h16 ▸ Nat.mod_lt _ (by norm_num))
  · rcases h with _ | ⟨_, h⟩
    · exact hmem _ (h16 ▸ Nat.mod_lt _ (by norm_num))
    · cases h

/-- C7: every signed outbound delivery — the auto callback on terminal
transitions when a nonempty callback_secret is supplied, and
webhook_delivery requests — carries the header X-GoFlow-Signature whose
value is the string sha256= followed by the lowercase hex encoding of the
HMAC-SHA256 digest keyed by the secret over exactly the bytes sent as the
request body. -/
theorem C7_hmac_signature :
    (∀ (hmacSHA256 : String → String → List Nat) (jobId : Nat) (payload : JVal)
       (st : Store) (secret : String) (req : OutRequest),
       getString payload "callback_secret" = some secret → secret ≠ "" →
       triggerAutoCallback hmacSHA256 jobId payload st = some req →
       ("X-GoFlow-Signature", "sha256=" ++ hexEncode (hmacSHA256 secret req.bodyBytes)) ∈
         req.headers) ∧
    (∀ (hmacSHA256 : String → String → List Nat) (payload : JVal) (secret : String)
       (req : OutRequest),
       getString payload "secret" = some secret →
       webhookDeliveryRequest hmacSHA256 payload = .ok req →
       ("X-GoFlow-Signature", "sha256=" ++ hexEncode (hmacSHA256 secret req.bodyBytes)) ∈
         req.headers) ∧
    (∀ bs : List Nat, ∀ c ∈ (hexEncode bs).data, c ∈ hexDigits) := by
  refine ⟨?_, ?_, ?_⟩
  · intro hmacSHA256 jobId payload st secret req hsec hne hreq
    unfold triggerAutoCallback at hreq
    cases hurl : getString payload "callback_url" with
    | none => rw [hurl] at hreq; cases hreq
    | some url =>
      rw [hurl] at hreq
      simp only at hreq
      by_cases hemp : url = ""
      · rw [if_pos hemp] at hreq; cases hreq
      · rw [if_neg hemp] at hreq
        cases hrow : findRow st jobId with
        | none => rw [hrow] at hreq; cases hreq
        | some row =>
          rw [hrow] at hreq
          simp only [hsec, Option.getD_some] at hreq
          rw [if_pos hne] at hreq
          obtain rfl := (Option.some.injEq _ _).mp hreq
          simp
  · intro hmacSHA256 payload secret req hsec hreq
    unfold webhookDeliveryRequest at hreq
    cases hurl : getString payload "url" with
    | none => rw [hurl] at hreq; cases hreq
    | some url =>
      rw [hurl] at hreq
      cases hev : getString payload "event" with
      | none => rw [hev] at hreq; cases hreq
      | some event =>
        rw [hev] at hreq
        simp only [hsec] at hreq
        obtain rfl := (Except.ok.injEq _ _).mp hreq
        simp
  · intro bs c hc
    simp only [hexEncode] at hc
    have hc2 : c ∈ (bs.map byteToHex).flatten := hc
    rw [List.mem_flatten] at hc2
    obtain ⟨chunk, hchunk, hcc⟩ := hc2
    rw [List.mem_map] at hchunk
    obtain ⟨b, _, rfl⟩ := hchunk
    exact mem_hexDigits_of_mem_byteToHex b c hcc

/-- Payload with a callback target and secret for the C7 witness. -/
def wCallbackPayload : JVal :=
  .obj [("callback_url", .str "http://cb.local/x"), ("callback_secret", .str "s3cr3t")]

/-- A completed row (id 1) fetched by the C7 witness callback. -/
def wDoneRow : JobRow :=
  { wRow with status := .completed }

/-- The request the auto callback builds for the C7 witness inputs, with
the HMAC primitive stubbed to the digest bytes 0x00 0xff. -/
def wCallbackReq : OutRequest :=
  { method := "POST", url := "http://cb.local/x",
    bodyBytes := "\x7b\"job_id\":1,\"status\":\"completed\"\x7d",
    headers := [("Content-Type", "application/json"),
                ("X-GoFlow-Signature", "sha256=00ff")] }

/-- Webhook payload for the C7 witness. -/
def wWebhookPayload : JVal :=
  .obj [("url", .str "http://hook.local"), ("event", .str "job.done"),
        ("secret", .str "s3cr3t")]

/-- The request executeWebhookDelivery builds for the C7 witness inputs. -/
def wWebhookReq : OutRequest :=
  { method := "POST", url := "http://hook.local",
    bodyBytes := "\x7b\"event\":\"job.done\",\"data\":null\x7d",
    headers := [("Content-Type", "application/json"),
                ("X-GoFlow-Signature", "sha256=00ff")] }

/-- Witness for C7 on both delivery paths, digest stubbed to [0x00, 0xff]
whose lowercase hex is 00ff. -/
theorem C7_hmac_signature_witness :
    (("X-GoFlow-Signature", "sha256=" ++ hexEncode [0, 255]) ∈ wCallbackReq.headers) ∧
    (("X-GoFlow-Signature", "sha256=" ++ hexEncode [0, 255]) ∈ wWebhookReq.headers) :=
  ⟨C7_hmac_signature.1 (fun _ _ => [0, 255]) 1 wCallbackPayload [wDoneRow] "s3cr3t"
      wCallbackReq rfl (by decide) rfl,
   C7_hmac_signature.2.1 (fun _ _ => [0, 255]) wWebhookPayload "s3cr3t" wWebhookReq rfl rfl⟩

/-- Probe handler set: every handler answers 200 with no bytes and no
error (distinguishable from the unknown-type error result). -/
def probeHandlers : Handlers :=
  { httpRequest := fun _ => { statusCode := 200, responseBody := .empty, execErr := none },
    sendEmail := fun _ => { statusCode := 200, responseBody := .empty, execErr := none },
    webhookDelivery := fun _ => { statusCode := 200, responseBody := .empty, execErr := none },
    delay := fun _ => { statusCode := 200, responseBody := .empty, execErr := none },
    cronSchedule := fun _ => { statusCode := 200, responseBody := .empty, execErr := none },
    dataExtract := fun _ => { statusCode := 200, responseBody := .empty, execErr := none },
    dbQuery := fun _ => { statusCode := 200, responseBody := .empty, execErr := none },
    aiPrompt := fun _ => { statusCode := 200, responseBody := .empty, execErr := none },
    callback := fun _ => { statusCode := 200, responseBody := .empty, execErr := none } }

/-- Any tag outside the part_003 switch falls into its default arm. -/
theorem ExecutePart003_unrouted (h : Handlers) (t : String) (p : JVal)
    (ht : t ∉ routedTypesPart003) : ExecutePart003 h t p = unknownTypeResult t := by
  simp only [routedTypesPart003, List.mem_cons, List.not_mem_nil, or_false, not_or] at ht
  unfold ExecutePart003
  split <;> simp_all

/-- Any tag outside the executor.go switch falls into its default arm. -/
theorem ExecuteExecutorGo_unrouted (h : Handlers) (t : String) (p : JVal)
    (ht : t ∉ routedTypesExecutorGo) : ExecuteExecutorGo h t p = unknownTypeResult t := by
  simp only [routedTypesExecutorGo, List.mem_cons, List.not_mem_nil, or_false, not_or] at ht
  unfold ExecuteExecutorGo
  split <;> simp_all

/-- The part_003 switch routes exactly its six listed tags. -/
theorem routes_ExecutePart003_iff (t : String) :
    routes ExecutePart003 t ↔ t ∈ routedTypesPart003 := by
  constructor
  · rintro ⟨h, p, hne⟩
    by_contra hmem
    exact hne (ExecutePart003_unrouted h t p hmem)
  · intro hmem
    refine ⟨probeHandlers, .null, ?_⟩
    simp only [routedTypesPart003, List.mem_cons, List.not_mem_nil, or_false] at hmem
    rcases hmem with rfl | rfl | rfl | rfl | rfl | rfl <;>
      simp [ExecutePart003, probeHandlers, unknownTypeResult]

/-- The executor.go switch routes exactly its five listed tags. -/
theorem routes_ExecuteExecutorGo_iff (t : String) :
    routes ExecuteExecutorGo t ↔ t ∈ routedTypesExecutorGo := by
  constructor
  · rintro ⟨h, p, hne⟩
    by_contra hmem
    exact hne (ExecuteExecutorGo_unrouted h t p hmem)
  · intro hmem
    refine ⟨probeHandlers, .null, ?_⟩
    simp only [routedTypesExecutorGo, List.mem_cons, List.not_mem_nil, or_false] at hmem
    rcases hmem with rfl | rfl | rfl | rfl | rfl <;>
      simp [ExecuteExecutorGo, probeHandlers, unknownTypeResult]

/-- C8 counterexample: the two dispatch tables route five and six job kinds,
not six and seven — data_extract separates them, the handler functions
referenced number nine, and neither table routes six-and-seven as claimed. -/
theorem C8_counterexample :
    ExecuteExecutorGo probeHandlers "data_extract" JVal.null =
      unknownTypeResult "data_extract" ∧
    ExecutePart003 probeHandlers "data_extract" JVal.null ≠
      unknownTypeResult "data_extract" ∧
    routedTypesExecutorGo.length = 5 ∧ routedTypesPart003.length = 6 ∧
    handlerFunctionNames.length = 9 ∧
    ¬(routedTypesExecutorGo.length = 6 ∨ routedTypesPart003.length = 7) := by
  refine ⟨rfl, ?_, rfl, rfl, rfl, by decide⟩
  simp [ExecutePart003, probeHandlers, unknownTypeResult]

/-- C8 amended: the source contains two executor dispatch tables that
drift — executor.go's Execute routes five job kinds and part_003's routes
six (each returns a handler result exactly on its listed tags and the
unknown-type error elsewhere), while the set of handler functions
referenced in the source is nine. -/
theorem C8_dispatch_drift :
    (∀ t, routes ExecuteExecutorGo t ↔ t ∈ routedTypesExecutorGo) ∧
    (∀ t, routes ExecutePart003 t ↔ t ∈ routedTypesPart003) ∧
    routedTypesExecutorGo.length = 5 ∧ routedTypesPart003.length = 6 ∧
    routedTypesExecutorGo.Nodup ∧ routedTypesPart003.Nodup ∧
    handlerFunctionNames.length = 9 ∧ handlerFunctionNames.Nodup :=
  ⟨routes_ExecuteExecutorGo_iff, routes_ExecutePart003_iff,
   rfl, rfl, by decide, by decide, rfl, by decide⟩

/-- Witness for C8: data_extract is routed by the part_003 table and not by
the executor.go table. -/
theorem C8_dispatch_drift_witness :
    routes ExecutePart003 "data_extract" ∧ ¬ routes ExecuteExecutorGo "data_extract" :=
  ⟨(C8_dispatch_drift.2.1 "data_extract").mpr (by decide),
   fun hr => absurd ((C8_dispatch_drift.1 "data_extract").mp hr) (by decide)⟩

/-- One worker cycle on a single-row table whose job type no handler
routes: the claim succeeds, dispatch yields the unknown-type error, the
diagnostics are persisted, and the retry policy applies. -/
theorem workerCycle_unrouted (h : Handlers) (now dur : Int) (r : JobRow)
    (ht : r.jtype ∉ routedTypesPart003)
    (hready : claimable now r = true) :
    workerCycle now dur (ExecutePart003 h) [] [r] =
      [if r.retryCount + 1 ≥ maxRetries then
        { r with status := .failed, retryCount := r.retryCount + 1,
                 lastError := some ("unknown job type: " ++ r.jtype),
                 responseStatus := some 0, responseBody := none,
                 executionTimeMs := some dur, updatedAt := now }
       else
        { r with status := .pending, retryCount := r.retryCount + 1,
                 runAt := now + (retryDelaySec r.retryCount : Int),
                 lastError := some ("unknown job type: " ++ r.jtype),
                 responseStatus := some 0, responseBody := none,
                 executionTimeMs := some dur, updatedAt := now }] := by
  have hsel : claimSelect now [] [r] = some r.id := by
    simp [claimSelect, hready]
  have hclaim : claimJob now [] [r] =
      (.claimed r.id, [{ r with status := .processing, updatedAt := now }]) := by
    simp [claimJob, hsel, updateRow]
  have hfind1 : findRow [{ r with status := JobStatus.processing, updatedAt := now }] r.id =
      some { r with status := JobStatus.processing, updatedAt := now } := by
    simp [findRow]
  by_cases hc : r.retryCount + 1 ≥ maxRetries <;>
    simp [workerCycle, hclaim, processJob, hfind1,
      ExecutePart003_unrouted h r.jtype r.payload ht, unknownTypeResult,
      ensureJsonBody, storeBytes, updateRow, handleRetry, findRow, hc]

/-- Cycle on an unrouted single-row table, retry case (attempts not yet
exhausted). -/
theorem workerCycle_unrouted_retry (h : Handlers) (now dur : Int) (r : JobRow)
    (ht : r.jtype ∉ routedTypesPart003) (hready : claimable now r = true)
    (hc : r.retryCount + 1 < maxRetries) :
    workerCycle now dur (ExecutePart003 h) [] [r] =
      [{ r with status := .pending, retryCount := r.retryCount + 1,
                runAt := now + (retryDelaySec r.retryCount : Int),
                lastError := some ("unknown job type: " ++ r.jtype),
                responseStatus := some 0, responseBody := none,
                executionTimeMs := some dur, updatedAt := now }] := by
  rw [workerCycle_unrouted h now dur r ht hready,
      if_neg (show ¬ r.retryCount + 1 ≥ maxRetries by omega)]

/-- Cycle on an unrouted single-row table, exhaustion case. -/
theorem workerCycle_unrouted_fail (h : Handlers) (now dur : Int) (r : JobRow)
    (ht : r.jtype ∉ routedTypesPart003) (hready : claimable now r = true)
    (hc : r.retryCount + 1 ≥ maxRetries) :
    workerCycle now dur (ExecutePart003 h) [] [r] =
      [{ r with status := .failed, retryCount := r.retryCount + 1,
                lastError := some ("unknown job type: " ++ r.jtype),
                responseStatus := some 0, responseBody := none,
                executionTimeMs := some dur, updatedAt := now }] := by
  rw [workerCycle_unrouted h now dur r ht hready, if_pos hc]

/-- A freshly submitted job of type t (id 1, no retries yet, due at 0). -/
def c5Row (t : String) : JobRow :=
  { id := 1, jtype := t, payload := .null, status := .pending, retryCount := 0,
    runAt := 0, lastError := none, responseStatus := none, responseBody := none,
    executionTimeMs := none, createdAt := 0, updatedAt := 0 }

/-- C5: a type tag with no registered handler makes dispatch return the
non-nil unknown-type error with no response bytes and status code 0; the
worker routes it through the ordinary failure path, so after three claims
(at times 100, 200, 300, honouring the backoff) the job's retry_count
reaches maxRetries and its status becomes failed. -/
theorem C5_unknown_type_exhausts (h : Handlers) (t : String) (p : JVal)
    (ht : t ∉ routedTypesPart003) :
    (ExecutePart003 h t p).execErr = some ("unknown job type: " ++ t) ∧
    (ExecutePart003 h t p).responseBody = RawBytes.empty ∧
    (ExecutePart003 h t p).statusCode = 0 ∧
    ((findRow
        (workerCycle 300 1 (ExecutePart003 h) []
          (workerCycle 200 1 (ExecutePart003 h) []
            (workerCycle 100 1 (ExecutePart003 h) [] [c5Row t]))) 1).map
      (fun x => (x.status, x.retryCount, x.lastError))) =
      some (JobStatus.failed, maxRetries, some ("unknown job type: " ++ t)) := by
  have hE := ExecutePart003_unrouted h t p ht
  refine ⟨by rw [hE]; rfl, by rw [hE]; rfl, by rw [hE]; rfl, ?_⟩
  have h1 := workerCycle_unrouted_retry h 100 1 (c5Row t) ht rfl
    (by norm_num [c5Row, maxRetries])
  rw [h1]
  norm_num [c5Row, retryDelaySec, baseDelaySec]
  have h2 := workerCycle_unrouted_retry h 200 1
    { id := 1, jtype := t, payload := .null, status := .pending, retryCount := 1,
      runAt := 105, lastError := some ("unknown job type: " ++ t),
      responseStatus := some 0, responseBody := none,
      executionTimeMs := some 1, createdAt := 0, updatedAt := 100 } ht rfl
    (by norm_num [maxRetries])
  rw [h2]
  norm_num [retryDelaySec, baseDelaySec]
  have h3 := workerCycle_unrouted_fail h 300 1
    { id := 1, jtype := t, payload := .null, status := .pending, retryCount := 2,
      runAt := 210, lastError := some ("unknown job type: " ++ t),
      responseStatus := some 0, responseBody := none,
      executionTimeMs := some 1, createdAt := 0, updatedAt := 200 } ht rfl
    (by norm_num [maxRetries])
  rw [h3]
  simp [findRow, maxRetries]

/-- Witness for C5: the unregistered tag no_such_handler is dispatched to
the unknown-type error and exhausts its three attempts into failed. -/
theorem C5_unknown_type_exhausts_witness :
    (ExecutePart003 probeHandlers "no_such_handler" JVal.null).execErr =
      some ("unknown job type: " ++ "no_such_handler") ∧
    ((findRow
        (workerCycle 300 1 (ExecutePart003 probeHandlers) []
          (workerCycle 200 1 (ExecutePart003 probeHandlers) []
            (workerCycle 100 1 (ExecutePart003 probeHandlers) []
              [c5Row "no_such_handler"]))) 1).map
      (fun x => (x.status, x.retryCount, x.lastError))) =
      some (JobStatus.failed, maxRetries, some ("unknown job type: " ++ "no_such_handler")) :=
  ⟨(C5_unknown_type_exhausts probeHandlers "no_such_handler" JVal.null (by decide)).1,
   (C5_unknown_type_exhausts probeHandlers "no_such_handler" JVal.null (by decide)).2.2.2⟩

end GoFlow
